import Mathlib

/-!
The distributed-lock package: a consul-backed lock wrapper (`locker.go`).

Shallow embedding of `locker.go`.  The wrapper owns almost no logic of its own:
every operation delegates to the consul `api` package.  That package is a
third-party dependency, so it appears here as a parameter (`ConsulApi`): a
record of the six methods the wrapper calls, each a transition on an arbitrary
library/service state `σ`.  The effects of the wrapper itself (the calls it issues and
their order, the channels it makes and closes, the goroutine it starts) are
recorded in a `World`.
-/

namespace locker

/-- The Go type `time.Duration`: a count of nanoseconds. -/
abbrev Duration := Int

/-- Go errors, compared by identity as in `err != api.ErrLockHeld`.  The wrapper
defines no error of its own; every error it returns comes from the `api` package. -/
inductive Error where
  | ErrLockHeld
  | ErrLockNotHeld
  | other (msg : String)
  deriving DecidableEq, Repr

/-- The `options` struct (locker.go 9-15). -/
structure options where
  SessionName : String
  SessionTTL : String
  SessionBehavior : String
  LockDelayTime : Duration
  LockWaitTime : Duration
  deriving DecidableEq, Repr

namespace api

/-- Modelled from the spec: constant `api.DefaultLockSessionName` of the consul
package (absent from src/), the "fixed library-defined name". -/
def DefaultLockSessionName : String := "Consul API Lock"

/-- Modelled from the spec: constant `api.DefaultLockSessionTTL` of the consul
package (absent from src/), the library-defined default of 15s. -/
def DefaultLockSessionTTL : String := "15s"

/-- Modelled from the spec: constant `api.SessionBehaviorDelete` of the consul
package (absent from src/), the expiry behaviour Delete. -/
def SessionBehaviorDelete : String := "delete"

/-- The fields of `api.SessionEntry` that `NewLock` fills in (locker.go 85-90). -/
structure SessionEntry where
  Name : String
  TTL : String
  Behavior : String
  LockDelay : Duration
  deriving DecidableEq, Repr

/-- The fields of `api.LockOptions` that `NewLock` fills in (locker.go 95-101). -/
structure LockOptions where
  Key : String
  Session : String
  SessionName : String
  SessionTTL : String
  LockWaitTime : Duration
  deriving DecidableEq, Repr

end api

/-- A `*api.Lock` pointer. -/
abbrev LockRef := Nat

/-- A Go channel made by the wrapper, named by its allocation index. -/
abbrev Chan := Nat

/-- What `Lock` uses of its `context.Context`: when `Done` fires
(`none`: never, as for `context.TODO()`; `some d`: after `d`). -/
abbrev Context := Option Duration

/-- The methods of the consul `api` package that the wrapper calls, as
transitions on the state `σ` of the library and of the service behind it.
`LockLock` returns whether the leader channel is non-nil, and the error. -/
structure ConsulApi (σ : Type) where
  CreateNoChecks : api.SessionEntry → σ → (String × Option Error) × σ
  LockOpts : api.LockOptions → σ → (LockRef × Option Error) × σ
  LockLock : LockRef → Context → σ → (Bool × Option Error) × σ
  LockUnlock : LockRef → σ → Option Error × σ
  LockDestroy : LockRef → σ → Option Error × σ
  SessionDestroy : String → σ → Option Error × σ

/-- An effect of the wrapper, with the answer it got. -/
inductive Event where
  | CreateNoChecks (se : api.SessionEntry) (id : String) (err : Option Error)
  | LockOpts (lo : api.LockOptions) (lock : LockRef) (err : Option Error)
  | RenewPeriodic (ttl : String) (id : String) (doneCh : Chan)
  | LockLock (lock : LockRef) (ctx : Context) (leader : Bool) (err : Option Error)
  | LockUnlock (lock : LockRef) (err : Option Error)
  | LockDestroy (lock : LockRef) (err : Option Error)
  | close (ch : Chan) (wasClosed : Bool)
  | SessionDestroy (id : String) (err : Option Error)
  deriving DecidableEq, Repr

/-- State threaded through the wrapper: the library/service state, the effects
issued so far (oldest first), for every channel made so far whether it has
been closed, and the current value of the package variable `defaultOptions`. -/
structure World (σ : Type) where
  consul : σ
  trace : List Event
  chans : List Bool
  defaults : options
  deriving DecidableEq, Repr

/-- The `Lock` struct (locker.go 71-77); `session` is the session
endpoint of the client and carries no state of its own. -/
structure Lock where
  opts : options
  lock : LockRef
  sessionId : String
  sessionRenew : Chan
  deriving DecidableEq, Repr

/-- Result of a call that may abort with a Go run-time panic. -/
inductive Outcome (α : Type) where
  | returned (a : α)
  | panicked (msg : String)
  deriving DecidableEq, Repr

set_option linter.dupNamespace false

variable {σ : Type}

/-- Initial value of the package variable `defaultOptions` (locker.go 17-21): the two
durations are left at the zero value.  The variable itself is `World.defaults`. -/
def defaultOptions : options :=
  { SessionName := api.DefaultLockSessionName
    SessionTTL := api.DefaultLockSessionTTL
    SessionBehavior := api.SessionBehaviorDelete
    LockDelayTime := 0
    LockWaitTime := 0 }

/-- The `Option` interface with its one implementation `funcOption`
(locker.go 23-29); a `func(*options)` is read as a function on the pointee. -/
structure funcOption where
  f : options → options

/-- Function `newFuncOption` (locker.go 31-35). -/
def newFuncOption (f : options → options) : funcOption := { f := f }

/-- Method `(fo *funcOption) apply` (locker.go 37-39). -/
def funcOption.apply (fo : funcOption) (opts : options) : options := fo.f opts

/-- Function `WithSessionName` (locker.go 41-45). -/
def WithSessionName (name : String) : funcOption :=
  newFuncOption (fun o => { o with SessionName := name })

/-- Function `WithSessionTTL` (locker.go 47-51); `durationString` stands for the Go method
`time.Duration.String`. -/
def WithSessionTTL (durationString : Duration → String) (ttl : Duration) : funcOption :=
  newFuncOption (fun o => { o with SessionTTL := durationString ttl })

/-- Function `WithSessionBehavior` (locker.go 53-57). -/
def WithSessionBehavior (behavior : String) : funcOption :=
  newFuncOption (fun o => { o with SessionBehavior := behavior })

/-- Function `WithLockDelayTime` (locker.go 59-63). -/
def WithLockDelayTime (lockDelayTime : Duration) : funcOption :=
  newFuncOption (fun o => { o with LockDelayTime := lockDelayTime })

/-- Function `WithLockWaitTime` (locker.go 65-69). -/
def WithLockWaitTime (lockWaitTime : Duration) : funcOption :=
  newFuncOption (fun o => { o with LockWaitTime := lockWaitTime })

/-- The Go builtin `make` at a channel type: a fresh, open channel. -/
def makeChan (w : World σ) : Chan × World σ :=
  (w.chans.length, { w with chans := w.chans ++ [false] })

/-- The Go builtin `close(ch)`: closing a channel that is already closed panics; the
first component tells whether it did. -/
def closeChan (ch : Chan) (w : World σ) : Bool × World σ :=
  let wasClosed := w.chans.getD ch false
  (wasClosed,
    { w with chans := w.chans.set ch true, trace := w.trace ++ [Event.close ch wasClosed] })

/-- The session entry `NewLock` builds from the options (locker.go 85-90). -/
def sessionEntry (opts : options) : api.SessionEntry :=
  { Name := opts.SessionName
    TTL := opts.SessionTTL
    Behavior := opts.SessionBehavior
    LockDelay := opts.LockDelayTime }

/-- The lock options `NewLock` builds (locker.go 95-101). -/
def lockOptions (key : String) (id : String) (opts : options) : api.LockOptions :=
  { Key := key
    Session := id
    SessionName := (sessionEntry opts).Name
    SessionTTL := (sessionEntry opts).TTL
    LockWaitTime := opts.LockWaitTime }

/-- Function `NewLock` (locker.go 79-115).  The assignment `opts := defaultOptions` copies
the package variable, and the options are applied to the copy.
`go session.RenewPeriodic(...)` is recorded as the start of the renewal loop. -/
def NewLock (c : ConsulApi σ) (key : String) (opt : List funcOption) (w : World σ) :
    (Option Lock × Option Error) × World σ :=
  let opts := opt.foldl (fun o fo => fo.apply o) w.defaults
  let se := sessionEntry opts
  let r := c.CreateNoChecks se w.consul
  let w1 : World σ :=
    { w with consul := r.2, trace := w.trace ++ [Event.CreateNoChecks se r.1.1 r.1.2] }
  match r.1.2 with
  | some err => ((none, some err), w1)
  | none =>
    let id := r.1.1
    let lo := lockOptions key id opts
    let r2 := c.LockOpts lo w1.consul
    let w2 : World σ :=
      { w1 with consul := r2.2, trace := w1.trace ++ [Event.LockOpts lo r2.1.1 r2.1.2] }
    match r2.1.2 with
    | some err => ((none, some err), w2)
    | none =>
      let ch := makeChan w2
      let l : Lock := { opts := opts, lock := r2.1.1, sessionId := id, sessionRenew := ch.1 }
      let w3 : World σ :=
        { ch.2 with trace := ch.2.trace ++ [Event.RenewPeriodic opts.SessionTTL id ch.1] }
      ((some l, none), w3)

/-- Method `(l *Lock) Lock(ctx)` (locker.go 117-133).  The stop channel is closed by
the goroutine when `ctx` is done, so the underlying call is given `ctx`. -/
def Lock.Lock (c : ConsulApi σ) (l : locker.Lock) (ctx : Context) (w : World σ) :
    (Bool × Option Error) × World σ :=
  let stopCh := makeChan w
  let r := c.LockLock l.lock ctx stopCh.2.consul
  let w1 : World σ :=
    { stopCh.2 with
      consul := r.2, trace := stopCh.2.trace ++ [Event.LockLock l.lock ctx r.1.1 r.1.2] }
  match r.1.2 with
  | some err => ((false, some err), w1)
  | none => if r.1.1 = false then ((false, none), w1) else ((true, none), w1)

/-- Method `(l *Lock) Unlock()` (locker.go 135-137). -/
def Lock.Unlock (c : ConsulApi σ) (l : locker.Lock) (w : World σ) : Option Error × World σ :=
  let r := c.LockUnlock l.lock w.consul
  (r.1, { w with consul := r.2, trace := w.trace ++ [Event.LockUnlock l.lock r.1] })

/-- Method `(l *Lock) Destroy()` (locker.go 139-143).  The operand of `return` is
evaluated first; the deferred calls then run last-in first-out:
`close(l.sessionRenew)`, then `l.session.Destroy(l.sessionId, nil)`, whose
result is dropped and which runs also when the close has panicked. -/
def Lock.Destroy (c : ConsulApi σ) (l : locker.Lock) (w : World σ) :
    Outcome (Option Error) × World σ :=
  let r := c.LockDestroy l.lock w.consul
  let w1 : World σ :=
    { w with consul := r.2, trace := w.trace ++ [Event.LockDestroy l.lock r.1] }
  let k := closeChan l.sessionRenew w1
  let d := c.SessionDestroy l.sessionId k.2.consul
  let w2 : World σ :=
    { k.2 with consul := d.2, trace := k.2.trace ++ [Event.SessionDestroy l.sessionId d.1] }
  (if k.1 then Outcome.panicked "close of closed channel" else Outcome.returned r.1, w2)

/-! ## A stand-in for consul, for concrete runs -/

/-- State of the in-memory stand-in. -/
structure Mem where
  created : Nat
  live : List String
  locks : List api.LockOptions
  held : List LockRef
  owner : List (String × String)
  deriving DecidableEq, Repr

/-- An in-memory stand-in for the consul library and agent: sessions are
numbered, a lock object remembers that it is held, a key has at most one owning
session, and an empty key is refused. -/
def mem : ConsulApi Mem where
  CreateNoChecks := fun _ m =>
    let id := "session-" ++ toString (m.created + 1)
    ((id, none), { m with created := m.created + 1, live := id :: m.live })
  LockOpts := fun lo m =>
    if lo.Key = "" then ((0, some (Error.other "missing key")), m)
    else ((m.locks.length, none), { m with locks := m.locks ++ [lo] })
  LockLock := fun r _ m =>
    if r ∈ m.held then ((false, some Error.ErrLockHeld), m)
    else match m.locks[r]? with
      | none => ((false, some (Error.other "unknown lock")), m)
      | some lo =>
        if lo.Session ∉ m.live then ((false, some (Error.other "invalid session")), m)
        else if m.owner.any (fun p => p.1 = lo.Key) then ((false, none), m)
        else ((true, none),
          { m with held := r :: m.held, owner := (lo.Key, lo.Session) :: m.owner })
  LockUnlock := fun r m =>
    if r ∈ m.held then
      (none, { m with
        held := m.held.erase r
        owner := m.owner.filter (fun p => some p.1 ≠ (m.locks[r]?).map (·.Key)) })
    else (some Error.ErrLockNotHeld, m)
  LockDestroy := fun r m =>
    if r ∈ m.held then (some Error.ErrLockHeld, m) else (none, m)
  SessionDestroy := fun id m =>
    (none, { m with live := m.live.erase id, owner := m.owner.filter (fun p => p.2 ≠ id) })

/-- The stand-in with an agent that answers every session destroy with an error. -/
def memSessionDown : ConsulApi Mem :=
  { mem with SessionDestroy := fun _ m => (some (Error.other "Unexpected response code: 500"), m) }

/-- The world before any call. -/
def World.init : World Mem :=
  { consul := { created := 0, live := [], locks := [], held := [], owner := [] }
    trace := []
    chans := []
    defaults := defaultOptions }

/-- The handle `NewLock` builds on the stand-in for key "test/lock", no options. -/
def handle₀ : Lock :=
  { opts := defaultOptions, lock := 0, sessionId := "session-1", sessionRenew := 0 }

/-- The world after `NewLock mem "test/lock" []` in the initial world. -/
def world₀ : World Mem := (NewLock mem "test/lock" [] World.init).2

/-- The world after a first, successful `Lock` on `handle₀`. -/
def worldHeld : World Mem := (Lock.Lock mem handle₀ none world₀).2

/-- A library that behaves as `c` and keeps, next to the state of `c`, the list
of the session entries it has been given (oldest first). -/
def spy (c : ConsulApi σ) : ConsulApi (σ × List api.SessionEntry) where
  CreateNoChecks := fun se s =>
    ((c.CreateNoChecks se s.1).1, ((c.CreateNoChecks se s.1).2, s.2 ++ [se]))
  LockOpts := fun lo s => ((c.LockOpts lo s.1).1, ((c.LockOpts lo s.1).2, s.2))
  LockLock := fun r ctx s => ((c.LockLock r ctx s.1).1, ((c.LockLock r ctx s.1).2, s.2))
  LockUnlock := fun r s => ((c.LockUnlock r s.1).1, ((c.LockUnlock r s.1).2, s.2))
  LockDestroy := fun r s => ((c.LockDestroy r s.1).1, ((c.LockDestroy r s.1).2, s.2))
  SessionDestroy := fun id s =>
    ((c.SessionDestroy id s.1).1, ((c.SessionDestroy id s.1).2, s.2))

/-- The world as the wrapped library sees it, without the list kept by `spy`. -/
def World.forget (w : World (σ × List api.SessionEntry)) : World σ :=
  { consul := w.consul.1, trace := w.trace, chans := w.chans, defaults := w.defaults }

/-- The world before any call, for the stand-in under `spy`. -/
def World.initSpy : World (Mem × List api.SessionEntry) :=
  { consul := (World.init.consul, [])
    trace := []
    chans := []
    defaults := defaultOptions }

/-- A call into the package. -/
inductive Op where
  | newLock (key : String) (opt : List funcOption)
  | lock (l : Lock) (ctx : Context)
  | unlock (l : Lock)
  | destroy (l : Lock)

/-- The world after one call. -/
def Op.run (c : ConsulApi σ) : Op → World σ → World σ
  | Op.newLock key opt, w => (NewLock c key opt w).2
  | Op.lock l ctx, w => (Lock.Lock c l ctx w).2
  | Op.unlock l, w => (Lock.Unlock c l w).2
  | Op.destroy l, w => (Lock.Destroy c l w).2

/-- The world after a sequence of calls, made one after the other. -/
def runOps (c : ConsulApi σ) (ops : List Op) (w : World σ) : World σ :=
  ops.foldl (fun w op => op.run c w) w

/-- Whether a call closes the channel `ch`: only `Destroy` closes a channel,
the stop channel of its handle. -/
def Op.closes : Op → Chan → Bool
  | Op.destroy l, ch => decide (l.sessionRenew = ch)
  | _, _ => false

theorem Lock_fst (c : ConsulApi σ) (l : Lock) (ctx : Context) (w : World σ) :
    (Lock.Lock c l ctx w).1 =
      match (c.LockLock l.lock ctx w.consul).1 with
      | (_, some e) => (false, some e)
      | (b, none) => (b, none) := by
  simp only [Lock.Lock, makeChan]
  generalize c.LockLock l.lock ctx w.consul = r
  rcases r with ⟨⟨b, e⟩, s⟩
  cases e <;> cases b <;> simp

theorem Lock_trace (c : ConsulApi σ) (l : Lock) (ctx : Context) (w : World σ) :
    (Lock.Lock c l ctx w).2.trace =
      w.trace ++ [Event.LockLock l.lock ctx (c.LockLock l.lock ctx w.consul).1.1
        (c.LockLock l.lock ctx w.consul).1.2] := by
  simp only [Lock.Lock, makeChan]
  generalize c.LockLock l.lock ctx w.consul = r
  rcases r with ⟨⟨b, e⟩, s⟩
  cases e <;> cases b <;> simp

theorem Destroy_trace (c : ConsulApi σ) (l : Lock) (w : World σ) :
    (Lock.Destroy c l w).2.trace =
      w.trace ++
        [Event.LockDestroy l.lock (c.LockDestroy l.lock w.consul).1,
         Event.close l.sessionRenew (w.chans.getD l.sessionRenew false),
         Event.SessionDestroy l.sessionId
           (c.SessionDestroy l.sessionId (c.LockDestroy l.lock w.consul).2).1] := by
  simp [Lock.Destroy, closeChan]

theorem Destroy_consul (c : ConsulApi σ) (l : Lock) (w : World σ) :
    (Lock.Destroy c l w).2.consul =
      (c.SessionDestroy l.sessionId (c.LockDestroy l.lock w.consul).2).2 := by
  simp [Lock.Destroy, closeChan]

theorem Destroy_chans (c : ConsulApi σ) (l : Lock) (w : World σ) :
    (Lock.Destroy c l w).2.chans = w.chans.set l.sessionRenew true := by
  simp [Lock.Destroy, closeChan]

theorem Destroy_fst (c : ConsulApi σ) (l : Lock) (w : World σ) :
    (Lock.Destroy c l w).1 =
      if w.chans.getD l.sessionRenew false then Outcome.panicked "close of closed channel"
      else Outcome.returned (c.LockDestroy l.lock w.consul).1 := by
  simp [Lock.Destroy, closeChan]

/-- A handle returned by `NewLock` has a stop channel that exists and is open. -/
theorem NewLock_chan (c : ConsulApi σ) (key : String) (opt : List funcOption)
    (w w₀ : World σ) (l : Lock) (h : NewLock c key opt w = ((some l, none), w₀)) :
    l.sessionRenew < w₀.chans.length ∧ w₀.chans.getD l.sessionRenew false = false := by
  simp only [NewLock, makeChan] at h
  split at h
  · simp at h
  · split at h
    · simp at h
    · simp only [Prod.mk.injEq, Option.some.injEq, and_true] at h
      obtain ⟨hl, hw⟩ := h
      subst hl
      subst hw
      simp

/-- Function `NewLock` leaves the package variable as it found it. -/
theorem NewLock_defaults (c : ConsulApi σ) (key : String) (opt : List funcOption)
    (w : World σ) : (NewLock c key opt w).2.defaults = w.defaults := by
  simp only [NewLock, makeChan]
  split
  · rfl
  · split <;> rfl

/-- Function `NewLock` gives the library one session entry, the one built from
the options applied in order to the current defaults. -/
theorem NewLock_spy_log (c : ConsulApi σ) (key : String) (opt : List funcOption)
    (w : World (σ × List api.SessionEntry)) :
    (NewLock (spy c) key opt w).2.consul.2 =
      w.consul.2 ++ [sessionEntry (opt.foldl (fun o fo => fo.apply o) w.defaults)] := by
  simp only [NewLock, makeChan]
  split
  · rfl
  · split <;> rfl

/-- Under `spy`, `NewLock` returns what it returns on the wrapped library, and
leaves the same world. -/
theorem NewLock_spy (c : ConsulApi σ) (key : String) (opt : List funcOption)
    (w : World (σ × List api.SessionEntry)) :
    (NewLock (spy c) key opt w).1 = (NewLock c key opt w.forget).1 ∧
    (NewLock (spy c) key opt w).2.forget = (NewLock c key opt w.forget).2 := by
  simp only [NewLock, makeChan, spy, World.forget]
  split
  · exact ⟨rfl, rfl⟩
  · split
    · exact ⟨rfl, rfl⟩
    · exact ⟨rfl, rfl⟩

theorem NewLock_chans (c : ConsulApi σ) (key : String) (opt : List funcOption)
    (w : World σ) :
    (NewLock c key opt w).2.chans = w.chans ∨
      (NewLock c key opt w).2.chans = w.chans ++ [false] := by
  simp only [NewLock, makeChan]
  split
  · exact Or.inl rfl
  · split
    · exact Or.inl rfl
    · exact Or.inr rfl

theorem Lock_chans (c : ConsulApi σ) (l : Lock) (ctx : Context) (w : World σ) :
    (Lock.Lock c l ctx w).2.chans = w.chans ++ [false] := by
  simp only [Lock.Lock, makeChan]
  generalize c.LockLock l.lock ctx w.consul = r
  rcases r with ⟨⟨b, e⟩, s⟩
  cases e <;> cases b <;> simp

/-- An open channel stays open, and a made channel stays made, when one more
channel is made. -/
theorem open_append (chans : List Bool) (ch : Chan)
    (h : ch < chans.length ∧ chans.getD ch false = false) :
    ch < (chans ++ [false]).length ∧ (chans ++ [false]).getD ch false = false := by
  obtain ⟨h1, h2⟩ := h
  refine ⟨by rw [List.length_append]; exact Nat.lt_add_right _ h1, ?_⟩
  rw [List.getD_eq_getElem?_getD] at h2 ⊢
  rw [List.getElem?_append_left h1]
  exact h2

/-- A call that does not close a channel leaves it made and open. -/
theorem open_run (c : ConsulApi σ) (op : Op) (w : World σ) (ch : Chan)
    (hc : op.closes ch = false)
    (h : ch < w.chans.length ∧ w.chans.getD ch false = false) :
    ch < (op.run c w).chans.length ∧ (op.run c w).chans.getD ch false = false := by
  cases op with
  | newLock key opt =>
    simp only [Op.run]
    rcases NewLock_chans c key opt w with hn | hn
    · rw [hn]
      exact h
    · rw [hn]
      exact open_append w.chans ch h
  | lock l ctx =>
    simp only [Op.run]
    rw [Lock_chans]
    exact open_append w.chans ch h
  | unlock l =>
    exact h
  | destroy l =>
    simp only [Op.closes, decide_eq_false_iff_not] at hc
    simp only [Op.run]
    rw [Destroy_chans]
    obtain ⟨h1, h2⟩ := h
    refine ⟨by simpa using h1, ?_⟩
    rw [List.getD_eq_getElem?_getD] at h2 ⊢
    rw [List.getElem?_set_ne hc]
    exact h2

/-- Calls of which none closes a channel leave it made and open. -/
theorem open_runOps (c : ConsulApi σ) (ch : Chan) (ops : List Op) :
    ∀ w : World σ, ops.all (fun op => !op.closes ch) = true →
      ch < w.chans.length ∧ w.chans.getD ch false = false →
      ch < (runOps c ops w).chans.length ∧ (runOps c ops w).chans.getD ch false = false := by
  induction ops with
  | nil =>
    intro w _ h
    exact h
  | cons op rest ih =>
    intro w hall h
    simp only [List.all_cons, Bool.and_eq_true] at hall
    exact ih (op.run c w) hall.2 (open_run c op w ch (by simpa using hall.1) h)

/-- C1. For every handle, context and underlying lock: `Lock` returns
`(false, err)` when the underlying acquisition returns the error `err`,
`(false, nil)` when it returns neither an error nor a leader channel, and
`(true, nil)` when it returns a leader channel and no error; it never returns
`true` together with an error. -/
theorem Lock_result (c : ConsulApi σ) (l : Lock) (ctx : Context) (w : World σ) :
    (∀ e, (c.LockLock l.lock ctx w.consul).1.2 = some e →
        (Lock.Lock c l ctx w).1 = (false, some e)) ∧
    ((c.LockLock l.lock ctx w.consul).1 = (false, none) →
        (Lock.Lock c l ctx w).1 = (false, none)) ∧
    ((c.LockLock l.lock ctx w.consul).1 = (true, none) →
        (Lock.Lock c l ctx w).1 = (true, none)) ∧
    ((Lock.Lock c l ctx w).1.1 = true → (Lock.Lock c l ctx w).1.2 = none) := by
  rw [Lock_fst]
  generalize c.LockLock l.lock ctx w.consul = r
  rcases r with ⟨⟨b, e⟩, s⟩
  cases e <;> cases b <;> simp

/-- Witness for C1: on the stand-in, the first `Lock` of a fresh handle gets a
leader channel and returns `(true, nil)`; the second gets the already-held
error and returns `(false, err)`. -/
theorem Lock_result_witness :
    (mem.LockLock handle₀.lock none world₀.consul).1 = (true, none) ∧
    (Lock.Lock mem handle₀ none world₀).1 = (true, none) ∧
    (mem.LockLock handle₀.lock none worldHeld.consul).1.2 = some Error.ErrLockHeld ∧
    (Lock.Lock mem handle₀ none worldHeld).1 = (false, some Error.ErrLockHeld) :=
  ⟨by decide, (Lock_result mem handle₀ none world₀).2.2.1 (by decide), by decide,
    (Lock_result mem handle₀ none worldHeld).1 Error.ErrLockHeld (by decide)⟩

/-- C4, as stated, fails: on the stand-in, the second `Destroy` of a handle
returned by `NewLock` does not return success (it aborts on closing the stop
channel a second time) and is no no-op: lock teardown and session destroy are
issued a second time. -/
theorem second_Destroy_aborts :
    NewLock mem "test/lock" [] World.init = ((some handle₀, none), world₀) ∧
    (Lock.Destroy mem handle₀ world₀).1 = Outcome.returned none ∧
    (Lock.Destroy mem handle₀ (Lock.Destroy mem handle₀ world₀).2).1 =
      Outcome.panicked "close of closed channel" ∧
    (Lock.Destroy mem handle₀ (Lock.Destroy mem handle₀ world₀).2).2.trace =
      world₀.trace ++
        [Event.LockDestroy 0 none, Event.close 0 false, Event.SessionDestroy "session-1" none,
         Event.LockDestroy 0 none, Event.close 0 true, Event.SessionDestroy "session-1" none] := by
  decide

/-- C4, amended. `Destroy` is not idempotent.  Take a handle returned by
`NewLock` and any calls made since (locks, unlocks, other handles built, used
or destroyed) of which none has destroyed this handle.  The first `Destroy`
returns the result of the lock teardown, having issued the lock teardown,
closed the (open) stop channel and issued the session destroy, once each; a
second `Destroy` runs the same three steps again, on a stop channel that is
now already closed. -/
theorem Destroy_twice (c : ConsulApi σ) (key : String) (opt : List funcOption)
    (w w₀ : World σ) (l : Lock) (h : NewLock c key opt w = ((some l, none), w₀))
    (ops : List Op) (hops : ops.all (fun op => !op.closes l.sessionRenew) = true) :
    (Lock.Destroy c l (runOps c ops w₀)).1 =
      Outcome.returned (c.LockDestroy l.lock (runOps c ops w₀).consul).1 ∧
    (Lock.Destroy c l (runOps c ops w₀)).2.trace =
      (runOps c ops w₀).trace ++
        [Event.LockDestroy l.lock (c.LockDestroy l.lock (runOps c ops w₀).consul).1,
         Event.close l.sessionRenew false,
         Event.SessionDestroy l.sessionId
           (c.SessionDestroy l.sessionId
             (c.LockDestroy l.lock (runOps c ops w₀).consul).2).1] ∧
    (Lock.Destroy c l (Lock.Destroy c l (runOps c ops w₀)).2).2.trace =
      (Lock.Destroy c l (runOps c ops w₀)).2.trace ++
        [Event.LockDestroy l.lock
           (c.LockDestroy l.lock (Lock.Destroy c l (runOps c ops w₀)).2.consul).1,
         Event.close l.sessionRenew true,
         Event.SessionDestroy l.sessionId
           (c.SessionDestroy l.sessionId
             (c.LockDestroy l.lock (Lock.Destroy c l (runOps c ops w₀)).2.consul).2).1] := by
  obtain ⟨hlt, hopen⟩ :=
    open_runOps c l.sessionRenew ops w₀ hops (NewLock_chan c key opt w w₀ l h)
  refine ⟨?_, ?_, ?_⟩
  · rw [Destroy_fst, hopen]
    simp
  · rw [Destroy_trace, hopen]
  · rw [Destroy_trace c l (Lock.Destroy c l (runOps c ops w₀)).2, Destroy_chans]
    simp [List.getD_eq_getElem?_getD, hlt]

/-- Witness for C4 amended: on the stand-in, the handle is locked, unlocked and
locked again, so that it holds the lock when it is destroyed; the first
`Destroy` returns the already-held error of the lock teardown. -/
theorem Destroy_twice_witness :
    NewLock mem "test/lock" [] World.init = ((some handle₀, none), world₀) ∧
    [Op.lock handle₀ none, Op.unlock handle₀, Op.lock handle₀ none].all
      (fun op => !op.closes handle₀.sessionRenew) = true ∧
    (Lock.Destroy mem handle₀
        (runOps mem [Op.lock handle₀ none, Op.unlock handle₀, Op.lock handle₀ none] world₀)).1 =
      Outcome.returned
        (mem.LockDestroy handle₀.lock
          (runOps mem [Op.lock handle₀ none, Op.unlock handle₀, Op.lock handle₀ none]
            world₀).consul).1 ∧
    (mem.LockDestroy handle₀.lock
        (runOps mem [Op.lock handle₀ none, Op.unlock handle₀, Op.lock handle₀ none]
          world₀).consul).1 = some Error.ErrLockHeld :=
  ⟨by decide, by decide,
    (Destroy_twice mem "test/lock" [] World.init world₀ handle₀ (by decide)
      [Op.lock handle₀ none, Op.unlock handle₀, Op.lock handle₀ none] (by decide)).1,
    by decide⟩

/-- C5, as stated, fails: on the stand-in, after `Destroy`, `Lock` issues the
acquire to the underlying lock and returns the error of the service, `Unlock`
issues the release, and on a handle that held the lock `Unlock` even succeeds. -/
theorem operations_after_Destroy :
    (Lock.Lock mem handle₀ none (Lock.Destroy mem handle₀ world₀).2).1 =
      (false, some (Error.other "invalid session")) ∧
    (Lock.Lock mem handle₀ none (Lock.Destroy mem handle₀ world₀).2).2.trace =
      (Lock.Destroy mem handle₀ world₀).2.trace ++
        [Event.LockLock 0 none false (some (Error.other "invalid session"))] ∧
    (Lock.Unlock mem handle₀ (Lock.Destroy mem handle₀ world₀).2).2.trace =
      (Lock.Destroy mem handle₀ world₀).2.trace ++
        [Event.LockUnlock 0 (some Error.ErrLockNotHeld)] ∧
    (Lock.Unlock mem handle₀ (Lock.Destroy mem handle₀ worldHeld).2).1 = none := by
  decide

/-- C5, amended. The handle keeps no destroyed state: after `Destroy`, `Lock`
still issues the acquisition to the underlying lock and returns what it
answers (`false` with its error, or its leader flag with a nil error), and
`Unlock` still issues the release and returns its error. -/
theorem after_Destroy_delegates (c : ConsulApi σ) (l : Lock) (ctx : Context) (w : World σ) :
    (Lock.Lock c l ctx (Lock.Destroy c l w).2).1 =
      (match (c.LockLock l.lock ctx (Lock.Destroy c l w).2.consul).1 with
        | (_, some e) => (false, some e)
        | (b, none) => (b, none)) ∧
    (Lock.Lock c l ctx (Lock.Destroy c l w).2).2.trace =
      (Lock.Destroy c l w).2.trace ++
        [Event.LockLock l.lock ctx
          (c.LockLock l.lock ctx (Lock.Destroy c l w).2.consul).1.1
          (c.LockLock l.lock ctx (Lock.Destroy c l w).2.consul).1.2] ∧
    (Lock.Unlock c l (Lock.Destroy c l w).2).1 =
      (c.LockUnlock l.lock (Lock.Destroy c l w).2.consul).1 ∧
    (Lock.Unlock c l (Lock.Destroy c l w).2).2.trace =
      (Lock.Destroy c l w).2.trace ++
        [Event.LockUnlock l.lock (c.LockUnlock l.lock (Lock.Destroy c l w).2.consul).1] :=
  ⟨Lock_fst c l ctx _, Lock_trace c l ctx _, rfl, rfl⟩

/-- C6, as stated, fails: on the stand-in, `Destroy` of a handle that holds
the lock starts with the lock teardown (refused, the lock being held), signals
the renewal loop only second, and issues no release at all. -/
theorem Destroy_order_held :
    (Lock.Lock mem handle₀ none world₀).1 = (true, none) ∧
    (Lock.Destroy mem handle₀ worldHeld).2.trace =
      worldHeld.trace ++
        [Event.LockDestroy 0 (some Error.ErrLockHeld), Event.close 0 false,
         Event.SessionDestroy "session-1" none] := by
  decide

/-- C6, amended. For every handle, `Destroy` performs exactly three steps, in
this order: the teardown of the underlying lock (always, and no release), the
close of the renewal stop channel, the session destroy; each is attempted
whatever the earlier ones answered. -/
theorem Destroy_steps (c : ConsulApi σ) (l : Lock) (w : World σ) :
    (Lock.Destroy c l w).2.trace =
      w.trace ++
        [Event.LockDestroy l.lock (c.LockDestroy l.lock w.consul).1,
         Event.close l.sessionRenew (w.chans.getD l.sessionRenew false),
         Event.SessionDestroy l.sessionId
           (c.SessionDestroy l.sessionId (c.LockDestroy l.lock w.consul).2).1] :=
  Destroy_trace c l w

/-- C7, as stated, fails: with an agent that refuses the session destroy, the
lock teardown succeeds, the session destroy fails, and `Destroy` returns nil. -/
theorem Destroy_session_error_dropped :
    NewLock memSessionDown "test/lock" [] World.init = ((some handle₀, none), world₀) ∧
    (Lock.Destroy memSessionDown handle₀ world₀).1 = Outcome.returned none ∧
    (Lock.Destroy memSessionDown handle₀ world₀).2.trace =
      world₀.trace ++
        [Event.LockDestroy 0 none, Event.close 0 false,
         Event.SessionDestroy "session-1" (some (Error.other "Unexpected response code: 500"))] := by
  decide

/-- C7, amended. On a handle whose stop channel is still open, `Destroy`
returns exactly the error of the lock teardown, its first step, and nil when
the teardown succeeded; the result of the session destroy is dropped. -/
theorem Destroy_returns_teardown_error (c : ConsulApi σ) (l : Lock) (w : World σ)
    (h : w.chans.getD l.sessionRenew false = false) :
    (Lock.Destroy c l w).1 = Outcome.returned (c.LockDestroy l.lock w.consul).1 := by
  rw [Destroy_fst, h]
  simp

/-- Witness for C7 amended: a held handle on the stand-in; `Destroy` returns
the already-held error of the lock teardown. -/
theorem Destroy_returns_teardown_error_witness :
    worldHeld.chans.getD handle₀.sessionRenew false = false ∧
    (Lock.Destroy mem handle₀ worldHeld).1 = Outcome.returned (some Error.ErrLockHeld) :=
  ⟨by decide, Destroy_returns_teardown_error mem handle₀ worldHeld (by decide)⟩

/-- C8 at the empty key: on the stand-in, `NewLock` creates the session, fails
to build the lock, and returns the error with the session still live: no
session destroy was issued. -/
theorem NewLock_empty_key_leaks :
    (NewLock mem "" [] World.init).1 = (none, some (Error.other "missing key")) ∧
    (NewLock mem "" [] World.init).2.trace =
      [Event.CreateNoChecks (sessionEntry defaultOptions) "session-1" none,
       Event.LockOpts (lockOptions "" "session-1" defaultOptions) 0
         (some (Error.other "missing key"))] ∧
    (NewLock mem "" [] World.init).2.consul.live = ["session-1"] := by
  decide

/-- C10. While the package variable holds its initial value, `NewLock` with no
options gives the library a session entry with the default name of the
library, the default TTL (15s), behaviour Delete and lock delay 0.  With any
option list it gives the library the defaults after the options have been
applied to them from left to right, where an option appended to a list
overrides its own field and no other.  The package variable is not touched: it
still holds the defaults afterwards, and a later `NewLock` without options
gives the library the defaults again.  The library is any one, observed through
`spy`, under which `NewLock` returns what it returns without. -/
theorem NewLock_session_entry (c : ConsulApi σ) (key key2 : String) (opt : List funcOption)
    (w : World (σ × List api.SessionEntry)) (durationString : Duration → String)
    (h : w.defaults = defaultOptions) :
    (NewLock (spy c) key [] w).2.consul.2 =
      w.consul.2 ++
        [{ Name := api.DefaultLockSessionName, TTL := api.DefaultLockSessionTTL,
           Behavior := api.SessionBehaviorDelete, LockDelay := 0 }] ∧
    api.DefaultLockSessionTTL = "15s" ∧
    (NewLock (spy c) key opt w).2.consul.2 =
      w.consul.2 ++ [sessionEntry (opt.foldl (fun o fo => fo.apply o) defaultOptions)] ∧
    (∀ name, (NewLock (spy c) key (opt ++ [WithSessionName name]) w).2.consul.2 =
      w.consul.2 ++
        [{ sessionEntry (opt.foldl (fun o fo => fo.apply o) defaultOptions) with
           Name := name }]) ∧
    (∀ ttl, (NewLock (spy c) key (opt ++ [WithSessionTTL durationString ttl]) w).2.consul.2 =
      w.consul.2 ++
        [{ sessionEntry (opt.foldl (fun o fo => fo.apply o) defaultOptions) with
           TTL := durationString ttl }]) ∧
    (∀ behavior, (NewLock (spy c) key (opt ++ [WithSessionBehavior behavior]) w).2.consul.2 =
      w.consul.2 ++
        [{ sessionEntry (opt.foldl (fun o fo => fo.apply o) defaultOptions) with
           Behavior := behavior }]) ∧
    (∀ d, (NewLock (spy c) key (opt ++ [WithLockDelayTime d]) w).2.consul.2 =
      w.consul.2 ++
        [{ sessionEntry (opt.foldl (fun o fo => fo.apply o) defaultOptions) with
           LockDelay := d }]) ∧
    (∀ d, (NewLock (spy c) key (opt ++ [WithLockWaitTime d]) w).2.consul.2 =
      w.consul.2 ++ [sessionEntry (opt.foldl (fun o fo => fo.apply o) defaultOptions)]) ∧
    (NewLock (spy c) key opt w).2.defaults = defaultOptions ∧
    (NewLock (spy c) key2 [] (NewLock (spy c) key opt w).2).2.consul.2 =
      w.consul.2 ++
        [sessionEntry (opt.foldl (fun o fo => fo.apply o) defaultOptions),
         { Name := api.DefaultLockSessionName, TTL := api.DefaultLockSessionTTL,
           Behavior := api.SessionBehaviorDelete, LockDelay := 0 }] ∧
    (NewLock (spy c) key opt w).1 = (NewLock c key opt w.forget).1 := by
  refine ⟨?_, rfl, ?_, ?_, ?_, ?_, ?_, ?_, ?_, ?_, (NewLock_spy c key opt w).1⟩
  · rw [NewLock_spy_log, h]
    rfl
  · rw [NewLock_spy_log, h]
  · intro name
    rw [NewLock_spy_log, h]
    simp [List.foldl_append, WithSessionName, newFuncOption, funcOption.apply, sessionEntry]
  · intro ttl
    rw [NewLock_spy_log, h]
    simp [List.foldl_append, WithSessionTTL, newFuncOption, funcOption.apply, sessionEntry]
  · intro behavior
    rw [NewLock_spy_log, h]
    simp [List.foldl_append, WithSessionBehavior, newFuncOption, funcOption.apply, sessionEntry]
  · intro d
    rw [NewLock_spy_log, h]
    simp [List.foldl_append, WithLockDelayTime, newFuncOption, funcOption.apply, sessionEntry]
  · intro d
    rw [NewLock_spy_log, h]
    simp [List.foldl_append, WithLockWaitTime, newFuncOption, funcOption.apply, sessionEntry]
  · rw [NewLock_defaults, h]
  · rw [NewLock_spy_log c key2 [], NewLock_spy_log c key opt, NewLock_defaults, h]
    simp [sessionEntry, defaultOptions]

/-- Witness for C10: the options of `TestWithLockDelayTimeLockWaitTime` on the
stand-in; the library is given the default name, TTL and behaviour and a lock
delay of 10s. -/
theorem NewLock_session_entry_witness :
    World.initSpy.defaults = defaultOptions ∧
    (NewLock (spy mem) "test/lock" [WithLockDelayTime 10000000000, WithLockWaitTime 1000000]
        World.initSpy).2.consul.2 =
      [{ Name := "Consul API Lock", TTL := "15s", Behavior := "delete",
         LockDelay := 10000000000 }] :=
  ⟨rfl,
    (NewLock_session_entry mem "test/lock" "test/lock"
      [WithLockDelayTime 10000000000, WithLockWaitTime 1000000] World.initSpy
      (fun _ => "15s") rfl).2.2.1⟩

end locker
